import Mathlib

/-!
# dockersh: a shallow embedding of `docker.go` and `dockersh.go`

The Go program talks to three things outside itself: the Docker client
library (`ContainerList`, `ContainerRemove`, `ContainerCreate`,
`ContainerStart`), the operating system (`os.Hostname`, `os.Getpid`,
`os.Getenv`, `exec.LookPath`, the terminal test) and the commands it spawns
with `exec.CommandContext(...).Run()`.  All of them are collected in the
record `Host σ`, a family of state-passing functions over an arbitrary world
state `σ`.  The functions of the program are embedded as Lean functions over a
`Host σ`; besides their Go result they return the list of requests they
issued, in order, so that statements about "what is sent, and when" are
statements about that list.

Logging through `logrus` changes neither control flow nor any value the
functions return, so the embedded functions do not carry it.  It does write to
the error stream while the logger's output is `os.Stderr` and its level admits
debug entries; the entries each function hands to `logrus.Debug`/`Debugf` are
given by a companion function (`startContainerLog`, `execContainer2Log`), and
`main` puts them on its error stream according to the logger it has set up.
-/

namespace Dockersh

/-! ## Data model -/

/-- Go's `error` values; `none : Option Error` is Go's `nil`. -/
abbrev Error := String

/-- Modelled from the spec: the `Configuration` record, whose declaration is
not part of the given sources.  The fields are exactly the ones `docker.go`
and `dockersh.go` read; integers are Go integers rendered with `%d`. -/
structure Configuration where
  ContainerName : String
  ImageName : String
  UserId : Int
  GroupId : Int
  UserCwd : String
  Env : List String
  Shell : String
  Entrypoint : String
  MountTmp : Bool
  MountHome : Bool
  MountHomeFrom : String
  MountHomeTo : String
  MountDockerSocket : Bool
  DockerSocket : String
  MemoryQuota : Int
  ContainerUsername : String
  LogFile : String
  LogLevel : String
deriving DecidableEq, Repr

/-- The element type of the slice `ContainerList` returns (`types.Container`);
only `ID` is read by the program. -/
structure ContainerSummary where
  ID : String
deriving DecidableEq, Repr

/-- The record `types.ContainerListOptions`; `Filters` holds the key/value pairs
added with `filter.Add`. -/
structure ContainerListOptions where
  All : Bool
  Filters : List (String × String)
deriving DecidableEq, Repr

/-- The record `types.ContainerRemoveOptions`. -/
structure ContainerRemoveOptions where
  RemoveVolumes : Bool
  RemoveLinks : Bool
  Force : Bool
deriving DecidableEq, Repr

/-- The record `container.Config`, with the fields `startContainer` writes.
`ExposedPorts` is not written by the source and so always holds Go's zero
value, the empty map. -/
structure ContainerConfig where
  Hostname : String
  User : String
  AttachStdin : Bool
  AttachStdout : Bool
  AttachStderr : Bool
  ExposedPorts : List String
  Tty : Bool
  OpenStdin : Bool
  StdinOnce : Bool
  Env : List String
  Image : String
  Volumes : List String
  WorkingDir : String
  Entrypoint : List String
  NetworkDisabled : Bool
  Labels : List (String × String)
  StopSignal : String
  StopTimeout : Option Int
  Shell : List String
deriving DecidableEq, Repr

/-- The record `mount.Mount`. -/
structure Mount where
  Target : String
  Source : String
  MountType : String
  ReadOnly : Bool
deriving DecidableEq, Repr

/-- The record `container.HostConfig`, with the fields `startContainer` writes.
`PortBindings` is not written by the source and so always holds Go's zero
value, the empty map. -/
structure HostConfig where
  Binds : List String
  AutoRemove : Bool
  CapAdd : List String
  CapDrop : List String
  Capabilities : List String
  PortBindings : List (String × String)
  Privileged : Bool
  PublishAllPorts : Bool
  ReadonlyRootfs : Bool
  SecurityOpt : List String
  Memory : Int
  Mounts : List Mount
deriving DecidableEq, Repr

/-- A request sent through the Docker client library. -/
inductive Request where
  | list (opts : ContainerListOptions)
  | remove (id : String) (opts : ContainerRemoveOptions)
  | create (c : ContainerConfig) (h : HostConfig) (name : String)
  | start (id : String)
deriving DecidableEq, Repr

/-- A command spawned with `exec.CommandContext(ctx, binary, args...)` and run
to completion; `timeout` is the deadline of `ctx` in seconds, `none` for a
context that is only cancellable. -/
structure Command where
  timeout : Option Nat
  binary : String
  args : List String
deriving DecidableEq, Repr

/-- The levels of `logrus`, least verbose first. -/
inductive Level where
  | PanicLevel
  | FatalLevel
  | ErrorLevel
  | WarnLevel
  | InfoLevel
  | DebugLevel
  | TraceLevel
deriving DecidableEq, Repr

/-- The numeric value of a `logrus` level; an entry is written when its level
is at most the logger's. -/
def Level.rank : Level → Nat
  | .PanicLevel => 0
  | .FatalLevel => 1
  | .ErrorLevel => 2
  | .WarnLevel => 3
  | .InfoLevel => 4
  | .DebugLevel => 5
  | .TraceLevel => 6

/-- The standard logger of `logrus`, as far as the program touches it: whether
its output is `os.Stderr` (the default) and its level (by default
`InfoLevel`). -/
structure Logger where
  toStderr : Bool
  level : Level
deriving DecidableEq, Repr

/-- Everything outside the program, over a world state `σ`. -/
structure Host (σ : Type) where
  /-- Go's `client.NewClientWithOpts(client.FromEnv, ...)`: `some e` on failure. -/
  NewClientWithOpts : σ → Option Error
  ContainerList : ContainerListOptions → σ → Except Error (List ContainerSummary) × σ
  ContainerRemove : String → ContainerRemoveOptions → σ → Option Error × σ
  /-- The id of `resp.ID` on success. -/
  ContainerCreate : ContainerConfig → HostConfig → String → σ → Except Error String × σ
  ContainerStart : String → σ → Option Error × σ
  /-- Go's `os.Hostname()` with its error dropped, as the source does. -/
  Hostname : σ → String
  /-- Go's `os.Getpid()`. -/
  Getpid : σ → Int
  /-- Go's `os.Getenv`. -/
  Getenv : String → σ → String
  /-- Go's `terminal.IsTerminal(int(os.Stdout.Fd()))`. -/
  IsTerminal : σ → Bool
  /-- Go's `exec.LookPath`. -/
  LookPath : String → σ → Except Error String
  /-- Go's `c.Run()`: the outcome (`none` on exit status 0, `some e` for a non-zero
  status, a kill after cancellation or after the deadline) and the world
  afterwards. -/
  Run : Command → σ → Option Error × σ
  /-- Modelled from the spec: `loadAllConfig`, defined outside the given
  sources; an external collaborator that yields the configuration or fails. -/
  loadAllConfig : σ → Except Error Configuration × σ
  /-- The standard logger of `logrus` as the code outside `main` has left it in
  this world. -/
  StdLogger : σ → Logger
  /-- Go's `os.OpenFile(name, os.O_CREATE|os.O_WRONLY|os.O_APPEND, 0644)`:
  whether it succeeded, and the world afterwards. -/
  OpenFile : String → σ → Bool × σ
  /-- Whether `ctx.Err()` is `context.DeadlineExceeded` once `c.Run()` of the
  command has returned in this world. -/
  DeadlineExceeded : Command → σ → Bool

/-! ## Formatting -/

/-- The verb `%d` of `fmt.Sprintf` on a Go integer. -/
def fmtD (n : Int) : String := toString n

/-- The pid-file path of `execContainer2`:
`fmt.Sprintf("/tmp/dockersh-exec-%d", os.Getpid())`. -/
def pidfilePath (pid : Int) : String := "/tmp/dockersh-exec-" ++ fmtD pid

/-! ## `docker.go`: lookup and provisioning -/

/-- What a Go function of type `(string, error)` returns, together with the
world afterwards and the requests it issued, oldest first. -/
structure Ret (σ : Type) where
  val : String
  err : Option Error
  state : σ
  trace : List Request

/-- The list options of `isContainerRunning`: `Filters` only, so `All` is false. -/
def runningOnly (name : String) : ContainerListOptions :=
  { All := false, Filters := [("name", name)] }

/-- The list options of `containerID`: `All: true` and the name filter. -/
def anyState (name : String) : ContainerListOptions :=
  { All := true, Filters := [("name", name)] }

/-- Source function `isContainerRunning`. -/
def isContainerRunning {σ : Type} (h : Host σ) (name : String) (s : σ) : Ret σ :=
  match h.NewClientWithOpts s with
  | some e => ⟨"", some e, s, []⟩
  | none =>
    match h.ContainerList (runningOnly name) s with
    | (.error e, s1) => ⟨"", some e, s1, [.list (runningOnly name)]⟩
    | (.ok (c :: _), s1) => ⟨c.ID, none, s1, [.list (runningOnly name)]⟩
    | (.ok [], s1) => ⟨"", none, s1, [.list (runningOnly name)]⟩

/-- Source function `containerID`. -/
def containerID {σ : Type} (h : Host σ) (name : String) (s : σ) : Ret σ :=
  match h.NewClientWithOpts s with
  | some e => ⟨"", some e, s, []⟩
  | none =>
    match h.ContainerList (anyState name) s with
    | (.error e, s1) => ⟨"", some e, s1, [.list (anyState name)]⟩
    | (.ok (c :: _), s1) => ⟨c.ID, none, s1, [.list (anyState name)]⟩
    | (.ok [], s1) => ⟨"", none, s1, [.list (anyState name)]⟩

/-- The options `startContainer` passes to `ContainerRemove`: the literal
`types.ContainerRemoveOptions{}`, every field at Go's zero value. -/
def removeOptions : ContainerRemoveOptions :=
  { RemoveVolumes := false, RemoveLinks := false, Force := false }

/-- The slice `binds` of `startContainer` when it reaches `ContainerCreate`. -/
def startBinds (config : Configuration) : List String :=
  let binds := ["/etc/passwd:/etc/passwd:ro", "/etc/group:/etc/group:ro"]
  let binds := if config.MountTmp then binds ++ ["/tmp:/tmp:rw"] else binds
  let binds :=
    if config.MountHome then
      binds ++ [config.MountHomeFrom ++ ":" ++ config.MountHomeTo ++ ":rw"]
    else binds
  let binds :=
    if config.MountDockerSocket then
      binds ++ [config.DockerSocket ++ ":/var/run/docker.sock"]
    else binds
  binds

/-- The `container.Config` literal of `startContainer`. -/
def createConfig (config : Configuration) (hostname : String) : ContainerConfig :=
  { Hostname := hostname
    User := fmtD config.UserId ++ ":" ++ fmtD config.GroupId
    AttachStdin := false
    AttachStdout := false
    AttachStderr := false
    ExposedPorts := []
    Tty := false
    OpenStdin := false
    StdinOnce := false
    Env := config.Env
    Image := config.ImageName
    Volumes := []
    WorkingDir := config.UserCwd
    Entrypoint := if config.Entrypoint ≠ "" then [config.Entrypoint] else []
    NetworkDisabled := false
    Labels := [("user", config.ContainerUsername)]
    StopSignal := ""
    StopTimeout := none
    Shell := ["/bin/bash"] }

/-- The `container.HostConfig` literal of `startContainer`. -/
def createHostConfig (config : Configuration) : HostConfig :=
  { Binds := startBinds config
    AutoRemove := true
    CapAdd := []
    CapDrop := ["SETUID", "SETGID", "NET_RAW", "MKNOD"]
    Capabilities := []
    PortBindings := []
    Privileged := false
    PublishAllPorts := false
    ReadonlyRootfs := true
    SecurityOpt := []
    Memory := config.MemoryQuota
    Mounts := [{ Target := "/var/run/screen", Source := "", MountType := "volume",
                 ReadOnly := false }] }

/-- The create request of `startContainer` in the world `s`. -/
def createRequest {σ : Type} (h : Host σ) (config : Configuration) (s : σ) : Request :=
  .create (createConfig config (h.Hostname s)) (createHostConfig config) config.ContainerName

/-- The tail of `startContainer` from `os.Hostname()` on: create, then start.
`tr` holds the requests issued before. -/
def createAndStart {σ : Type} (h : Host σ) (config : Configuration) (s : σ)
    (tr : List Request) : Ret σ :=
  match h.ContainerCreate (createConfig config (h.Hostname s)) (createHostConfig config)
      config.ContainerName s with
  | (.error e, s1) => ⟨"", some e, s1, tr ++ [createRequest h config s]⟩
  | (.ok respID, s1) =>
    match h.ContainerStart respID s1 with
    | (some e, s2) => ⟨"", some e, s2, tr ++ [createRequest h config s, .start respID]⟩
    | (none, s2) => ⟨respID, none, s2, tr ++ [createRequest h config s, .start respID]⟩

/-- Source function `startContainer`.  The error of `containerID` is bound to
`err` and not read before `err` is assigned again, so only `r.val` is used. -/
def startContainer {σ : Type} (h : Host σ) (config : Configuration) (s : σ) : Ret σ :=
  match h.NewClientWithOpts s with
  | some e => ⟨"", some e, s, []⟩
  | none =>
    let r := containerID h config.ContainerName s
    if r.val ≠ "" then
      match h.ContainerRemove r.val removeOptions r.state with
      | (some e, s2) => ⟨"", some e, s2, r.trace ++ [.remove r.val removeOptions]⟩
      | (none, s2) => createAndStart h config s2 (r.trace ++ [.remove r.val removeOptions])
    else
      createAndStart h config r.state r.trace

/-! ## `docker.go`: the session bridge and its cleanup -/

/-- The slice `args` of `execContainer2` up to and including `--interactive`. -/
def sessionOptions (config : Configuration) (isTerminal : Bool) : List String :=
  let args := ["exec"]
  let args := args ++ ["--user"]
  let args := args ++ [fmtD config.UserId ++ ":" ++ fmtD config.GroupId]
  let args := args ++ ["--workdir"]
  let args := args ++ [config.UserCwd]
  let args := config.Env.foldl (fun acc e => acc ++ ["-e"] ++ [e]) args
  let args := if isTerminal then args ++ ["--tty"] else args
  args ++ ["--interactive"]

/-- The bootstrap of login mode: `fmt.Sprintf("echo $$ > %s; exec %v", pidfile, config.Shell)`. -/
def bootstrap (config : Configuration) (pidfile : String) : String :=
  "echo $$ > " ++ pidfile ++ "; exec " ++ config.Shell

/-- The complete slice `args` of `execContainer2`; `cmd` is the global set by
the flag `-c`, `ps1` the value of `os.Getenv("PS1")`. -/
def sessionArgs (config : Configuration) (cmd : String) (isTerminal : Bool) (ps1 : String)
    (pidfile : String) (id : String) : List String :=
  let args := sessionOptions config isTerminal
  let args := args ++ [id]
  let args := args ++ [config.Shell]
  if cmd ≠ "" then
    let args := args ++ ["-c"]
    args ++ [cmd]
  else
    let args := args ++ ["--login"]
    let args := if ps1 ≠ "" then args ++ ["-i"] else args
    let args := args ++ ["-c"]
    args ++ [bootstrap config pidfile]

/-- The script of `dockerExecCleanup`:
`fmt.Sprintf("if [ -f %v ]; then kill -HUP -$(cat %v); rm %v; fi", pidfile, pidfile, pidfile)`. -/
def cleanupScript (pidfile : String) : String :=
  "if [ -f " ++ pidfile ++ " ]; then kill -HUP -$(cat " ++ pidfile ++ "); rm " ++ pidfile ++ "; fi"

/-- The slice `a` of `dockerExecCleanup`. -/
def cleanupArgs (config : Configuration) (dockerId : String) (pidfile : String) : List String :=
  let a := ["exec"]
  let a := a ++ [dockerId]
  let a := a ++ [config.Shell]
  let a := a ++ ["-c"]
  a ++ [cleanupScript pidfile]

/-- The command `dockerExecCleanup` runs, under a deadline of ten seconds. -/
def cleanupCommand (config : Configuration) (dockerId dockerBinary pidfile : String) : Command :=
  { timeout := some 10, binary := dockerBinary, args := cleanupArgs config dockerId pidfile }

/-- Source function `dockerExecCleanup`: it returns nothing; whatever `c.Run()`
yields (success, failure, deadline exceeded) is only logged.  The result is the
world afterwards and the commands it ran. -/
def dockerExecCleanup {σ : Type} (h : Host σ) (config : Configuration)
    (dockerId dockerBinary pidfile : String) (s : σ) : σ × List Command :=
  match h.Run (cleanupCommand config dockerId dockerBinary pidfile) s with
  | (_, s1) => (s1, [cleanupCommand config dockerId dockerBinary pidfile])

/-- What `execContainer2` returns (a Go `error`), the world afterwards and the
commands run, oldest first. -/
structure ExecRet (σ : Type) where
  err : Option Error
  state : σ
  trace : List Command

/-- The session command of `execContainer2` in the world `s`. -/
def sessionCommand {σ : Type} (h : Host σ) (cmd : String) (id : String)
    (config : Configuration) (dockerBinary : String) (s : σ) : Command :=
  { timeout := none, binary := dockerBinary,
    args := sessionArgs config cmd (h.IsTerminal s) (h.Getenv "PS1" s)
      (pidfilePath (h.Getpid s)) id }

/-- Source function `execContainer2`.  A signal caught by the handler cancels the
context, which makes `c.Run()` return an error: that is one of the outcomes of
`h.Run`.  The deferred `dockerExecCleanup` runs once `return err` has fixed the
result. -/
def execContainer2 {σ : Type} (h : Host σ) (cmd : String) (id : String)
    (config : Configuration) (s : σ) : ExecRet σ :=
  match h.LookPath "docker" s with
  | .error e => ⟨some e, s, []⟩
  | .ok dockerBinary =>
    match h.Run (sessionCommand h cmd id config dockerBinary s) s with
    | (err, s1) =>
      let r := dockerExecCleanup h config id dockerBinary (pidfilePath (h.Getpid s)) s1
      ⟨err, r.1, [sessionCommand h cmd id config dockerBinary s] ++ r.2⟩

/-! ## Logging -/

/-- Go's `logrus.ParseLevel`: the level named by the string, case folded (for
ASCII letters, which is all the level names consist of), or `none` where Go
returns an error. -/
def ParseLevel (lvl : String) : Option Level :=
  match String.mk (lvl.data.map Char.toLower) with
  | "panic" => some .PanicLevel
  | "fatal" => some .FatalLevel
  | "error" => some .ErrorLevel
  | "warn" => some .WarnLevel
  | "warning" => some .WarnLevel
  | "info" => some .InfoLevel
  | "debug" => some .DebugLevel
  | "trace" => some .TraceLevel
  | _ => none

/-- One write of the main goroutine to `os.Stderr`: a diagnostic printed with
`fmt.Fprintf`, or an entry of `logrus` at debug level, named by the format
string of the call (the formatter of `logrus` adds time and level and renders
the arguments). -/
inductive Write where
  | diagnostic (text : String)
  | debug (format : String)
deriving DecidableEq, Repr

/-- What a sequence of `logrus.Debug`/`Debugf` calls writes to `os.Stderr`
under the logger `l`: every entry when the output is `os.Stderr` and the level
admits debug entries, nothing otherwise. -/
def Logger.Debug (l : Logger) (formats : List String) : List Write :=
  if l.toStderr && decide (Level.DebugLevel.rank ≤ l.level.rank) then
    formats.map Write.debug
  else []

/-- The debug entries of `startContainer` between the removal and the create
request. -/
def provisionLog (config : Configuration) : List String :=
  ["Entry point is: %v"]
    ++ (if config.MountTmp then ["Bind mounting /tmp"] else [])
    ++ (if config.MountHome then ["Bind mounting home: %v"] else [])
    ++ (if config.MountDockerSocket then ["Bind mounting %v"] else [])

/-- The debug entries `startContainer` hands to `logrus`, in order, on the run
that `startContainer h config s` describes. -/
def startContainerLog {σ : Type} (h : Host σ) (config : Configuration) (s : σ) : List String :=
  match h.NewClientWithOpts s with
  | some _ => []
  | none =>
    let r := containerID h config.ContainerName s
    if r.val ≠ "" then
      match h.ContainerRemove r.val removeOptions r.state with
      | (some _, _) =>
        ["Checking if container with name %v already exists: %v",
         "Removing container, name: %v id: %v"]
      | (none, _) =>
        ["Checking if container with name %v already exists: %v",
         "Removing container, name: %v id: %v"] ++ provisionLog config
    else
      ["Checking if container with name %v already exists: %v"] ++ provisionLog config

/-- The debug entries `dockerExecCleanup` hands to `logrus`, in order. -/
def dockerExecCleanupLog {σ : Type} (h : Host σ) (config : Configuration)
    (dockerId dockerBinary pidfile : String) (s : σ) : List String :=
  match (h.Run (cleanupCommand config dockerId dockerBinary pidfile) s).1 with
  | none => ["Docker exec cleanup, running: %v", "docker exec cleanup finished"]
  | some _ =>
    ["Docker exec cleanup, running: %v", "Error docker exec cleanup: %v"]
      ++ (if h.DeadlineExceeded (cleanupCommand config dockerId dockerBinary pidfile) s then
            ["docker exec cleanup timedout"] else [])

/-- The debug entries the main goroutine hands to `logrus` inside
`execContainer2`, in order (the entry of the signal-handling goroutine is not
among them). -/
def execContainer2Log {σ : Type} (h : Host σ) (cmd : String) (id : String)
    (config : Configuration) (s : σ) : List String :=
  match h.LookPath "docker" s with
  | .error _ => []
  | .ok dockerBinary =>
    ["Running command and waiting for it to finish: %v", "Command finished: %v"]
      ++ dockerExecCleanupLog h config id dockerBinary (pidfilePath (h.Getpid s))
          (h.Run (sessionCommand h cmd id config dockerBinary s) s).2

/-! ## `dockersh.go` -/

/-- How a Go process comes to its end: `main` returns, or `os.Exit(code)` is
called. -/
inductive Termination where
  | mainReturned
  | osExit (code : Nat)
deriving DecidableEq, Repr

/-- The exit status the operating system sees: 0 when `main` returns, the
argument of `os.Exit` otherwise. -/
def Termination.status : Termination → Nat
  | .mainReturned => 0
  | .osExit code => code

/-- What a run of the process leaves behind: the writes of the main goroutine
to `os.Stderr`, in order, and how the process ended.  The session command
shares the stream (`c.Stderr = os.Stderr`); what the command itself prints is
not part of `stderr`. -/
structure Exit where
  stderr : List Write
  ended : Termination
deriving DecidableEq, Repr

/-- The exit status of a run. -/
def Exit.status (e : Exit) : Nat := e.ended.status

/-- The logger `main` works with after it has read `LogFile` and `LogLevel`,
the world after the attempt to open the log file, and what was written to
`os.Stderr` on the way. -/
structure LogSetup (σ : Type) where
  logger : Logger
  state : σ
  written : List Write

/-- The blocks `if config.LogFile != ""` and `if config.LogLevel != ""` of
`main`.  A log file that opens becomes the output of the logger; one that does
not is reported at debug level.  A level that parses is set; one that does not
sets `InfoLevel`. -/
def setupLogger {σ : Type} (h : Host σ) (config : Configuration) (s0 : σ) : LogSetup σ :=
  let opened : LogSetup σ :=
    if config.LogFile ≠ "" then
      match h.OpenFile config.LogFile s0 with
      | (false, s1) =>
        ⟨h.StdLogger s0, s1,
          (h.StdLogger s0).Debug ["Failed to open log file %s for output: %s"]⟩
      | (true, s1) => ⟨⟨false, (h.StdLogger s0).level⟩, s1, []⟩
    else ⟨h.StdLogger s0, s0, []⟩
  if config.LogLevel ≠ "" then
    match ParseLevel config.LogLevel with
    | some ll => ⟨⟨opened.logger.toStderr, ll⟩, opened.state, opened.written⟩
    | none => ⟨⟨opened.logger.toStderr, .InfoLevel⟩, opened.state, opened.written⟩
  else opened

/-- The block `if id == "" { id, err = startContainer(config) ... }` of `main`:
the id to exec into, given what the running-only lookup `r` returned. -/
def obtainID {σ : Type} (h : Host σ) (config : Configuration) (r : Ret σ) : Ret σ :=
  if r.val = "" then startContainer h config r.state else ⟨r.val, none, r.state, []⟩

/-- The debug entries of that block, up to the point where `startContainer`
has returned. -/
def obtainIDLog {σ : Type} (h : Host σ) (config : Configuration) (r : Ret σ) : List String :=
  if r.val = "" then
    ["Container is not running, starting it"] ++ startContainerLog h config r.state
  else []

/-- Source function `main`.  Every path of the source leaves `main` by `return`
(or by falling off its end); neither file calls `os.Exit`.  The first two debug
entries are written under the logger `main` finds, the later ones under the
logger it has set up from `LogFile` and `LogLevel`. -/
def main {σ : Type} (h : Host σ) (cmd : String) (s : σ) : Exit :=
  let w0 := (h.StdLogger s).Debug ["Starting dockersh", "Loading all config files"]
  match h.loadAllConfig s with
  | (.error err, _) =>
    ⟨w0 ++ [.diagnostic ("Could not load config: " ++ err ++ "\n")], .mainReturned⟩
  | (.ok config, s0) =>
    let ls := setupLogger h config s0
    let w1 := w0 ++ ls.written
      ++ ls.logger.Debug ["Config dump: %+v", "Checking for container: name=%v"]
    let r := isContainerRunning h config.ContainerName ls.state
    match r.err with
    | some err =>
      ⟨w1 ++ [.diagnostic ("Could not check container status: " ++ err ++ "\n")],
        .mainReturned⟩
    | none =>
      let w2 := w1 ++ ls.logger.Debug ["Container running? %v"]
        ++ ls.logger.Debug (obtainIDLog h config r)
      let r2 := obtainID h config r
      match r2.err with
      | some err =>
        ⟨w2 ++ [.diagnostic ("could not start container: " ++ err ++ "\n")]
            ++ ls.logger.Debug ["could not start container: %s\n"], .mainReturned⟩
      | none =>
        let w3 := w2 ++ ls.logger.Debug ["Container ID: %v", "Exec into the container"]
          ++ ls.logger.Debug (execContainer2Log h cmd r2.val config r2.state)
        match (execContainer2 h cmd r2.val config r2.state).err with
        | some err =>
          ⟨w3 ++ [.diagnostic ("could not exec into container: " ++ err ++ "\n")],
            .mainReturned⟩
        | none => ⟨w3, .mainReturned⟩

/-! ## The container runtime of the specification

The Docker engine is an external collaborator.  For statements about the
containers that exist after provisioning, the runtime is modelled the way the
specification describes it: containers carry an identifier, a name and a
logical state; a name is looked up exactly; nothing in the runtime prevents two
containers from carrying one name. -/

/-- The logical state of a container that exists (an absent one is not in the
runtime's list). -/
inductive ContainerState where
  | Stopped
  | Running
deriving DecidableEq, Repr

/-- A container held by the runtime. -/
structure Container where
  ID : String
  Name : String
  State : ContainerState
deriving DecidableEq, Repr

/-- The state of the modelled runtime: its containers, in the order a list
request reports them. -/
structure Engine where
  containers : List Container
deriving DecidableEq, Repr

/-- Whether a container passes the filters of a list request: every `name`
filter must equal its name. -/
def Engine.passes (opts : ContainerListOptions) (c : Container) : Bool :=
  opts.Filters.all (fun f => f.1 != "name" || f.2 == c.Name) &&
    (opts.All || c.State == .Running)

/-- Modelled from the spec: the list request of the runtime control API, "by
exact name, with an all-states toggle". -/
def Engine.list (opts : ContainerListOptions) (s : Engine) :
    Except Error (List ContainerSummary) × Engine :=
  (.ok ((s.containers.filter (Engine.passes opts)).map (fun c => ⟨c.ID⟩)), s)

/-- Modelled from the spec: the remove request of the runtime control API.  It
fails for an unknown id, and for a running container unless forced. -/
def Engine.remove (id : String) (opts : ContainerRemoveOptions) (s : Engine) :
    Option Error × Engine :=
  match s.containers.find? (fun c => c.ID == id) with
  | none => (some "no such container", s)
  | some c =>
    if c.State == .Running && !opts.Force then
      (some "cannot remove a running container", s)
    else
      (none, { containers := s.containers.filter (fun c => c.ID != id) })

/-- An identifier no container of the runtime carries: longer than all of
them, and not empty. -/
def Engine.freshID (s : Engine) : String :=
  String.mk (List.replicate ((s.containers.map (fun c => c.ID.length)).foldl max 0 + 1) 'c')

/-- Modelled from the spec: the create request of the runtime control API.  The
new container has a fresh identifier and the requested name, and is not
running yet. -/
def Engine.create (name : String) (s : Engine) : Except Error String × Engine :=
  (.ok s.freshID, { containers := s.containers ++ [⟨s.freshID, name, .Stopped⟩] })

/-- The effect of starting `id` on one container: the container with that
identifier becomes Running, any other is left as it is. -/
def Container.started (id : String) (c : Container) : Container :=
  if c.ID == id then ⟨c.ID, c.Name, .Running⟩ else c

/-- Modelled from the spec: the start request of the runtime control API. -/
def Engine.start (id : String) (s : Engine) : Option Error × Engine :=
  if s.containers.any (fun c => c.ID == id) then
    (none, ⟨s.containers.map (Container.started id)⟩)
  else
    (some "no such container", s)

/-- Modelled from the spec: a host whose Docker client talks to the modelled
runtime.  The client can always be built; what is not a runtime request is
fixed to a plain value, and no command is ever found or run. -/
def engineHost : Host Engine :=
  { NewClientWithOpts := fun _ => none
    ContainerList := Engine.list
    ContainerRemove := Engine.remove
    ContainerCreate := fun _ _ name s => Engine.create name s
    ContainerStart := Engine.start
    Hostname := fun _ => "host"
    Getpid := fun _ => 1
    Getenv := fun _ _ => ""
    IsTerminal := fun _ => false
    LookPath := fun _ _ => .error "executable file not found in $PATH"
    Run := fun _ s => (some "not run", s)
    loadAllConfig := fun s => (.error "no configuration", s)
    StdLogger := fun _ => ⟨true, .InfoLevel⟩
    OpenFile := fun _ s => (true, s)
    DeadlineExceeded := fun _ _ => false }

/-- The containers of the runtime that carry `name`. -/
def Engine.named (name : String) (s : Engine) : List Container :=
  s.containers.filter (fun c => c.Name == name)

/-! ## Concrete inputs -/

/-- A configuration for a container named `devbox`. -/
def devbox : Configuration :=
  { ContainerName := "devbox", ImageName := "img", UserId := 1000, GroupId := 1000,
    UserCwd := "/home/u", Env := ["A=1"], Shell := "/bin/bash", Entrypoint := "",
    MountTmp := true, MountHome := true, MountHomeFrom := "/home/u", MountHomeTo := "/home/u",
    MountDockerSocket := false, DockerSocket := "/var/run/docker.sock", MemoryQuota := 0,
    ContainerUsername := "u", LogFile := "", LogLevel := "" }

/-- A runtime without containers. -/
def noContainers : Engine := ⟨[]⟩

/-- A runtime holding one stopped container named `devbox`. -/
def oneStopped : Engine := ⟨[⟨"a", "devbox", .Stopped⟩]⟩

/-- A runtime holding two stopped containers that both carry the name `devbox`. -/
def twoStopped : Engine := ⟨[⟨"a", "devbox", .Stopped⟩, ⟨"b", "devbox", .Stopped⟩]⟩

/-- A host on which the configuration `devbox` is loaded, `docker` is found at
/usr/bin/docker, the process id is 4242, `PS1` is set, standard output is a terminal, and every command run
fails (the session with a non-zero status, the cleanup as well). -/
def failingRunHost : Host Engine :=
  { engineHost with
    loadAllConfig := fun s => (.ok devbox, s)
    Getpid := fun _ => 4242
    Getenv := fun name _ => if name = "PS1" then "$ " else ""
    IsTerminal := fun _ => true
    LookPath := fun _ _ => .ok "/usr/bin/docker"
    Run := fun c s => (some (if c.timeout = none then "exit status 3" else "signal: killed"), s) }

/-- The configuration `devbox` with `LogLevel` "debug" and no log file. -/
def devboxDebug : Configuration := { devbox with LogLevel := "debug" }

/-- A host like `failingRunHost` that loads `devboxDebug` and whose commands
all succeed. -/
def debugHost : Host Engine :=
  { failingRunHost with
    loadAllConfig := fun s => (.ok devboxDebug, s)
    Run := fun _ s => (none, s) }

/-- A host whose world is the list of the commands that were run on it, oldest
first: `Run` appends its command and reports success.  `docker` is found at
/usr/bin/docker, the process id is 4242, `PS1` is set and standard output is a
terminal; no runtime request succeeds. -/
def recordingHost : Host (List Command) :=
  { NewClientWithOpts := fun _ => some "no docker client"
    ContainerList := fun _ s => (.error "no docker client", s)
    ContainerRemove := fun _ _ s => (some "no docker client", s)
    ContainerCreate := fun _ _ _ s => (.error "no docker client", s)
    ContainerStart := fun _ s => (some "no docker client", s)
    Hostname := fun _ => "host"
    Getpid := fun _ => 4242
    Getenv := fun name _ => if name = "PS1" then "$ " else ""
    IsTerminal := fun _ => true
    LookPath := fun _ _ => .ok "/usr/bin/docker"
    Run := fun c s => (none, s ++ [c])
    loadAllConfig := fun s => (.ok devbox, s)
    StdLogger := fun _ => ⟨true, .InfoLevel⟩
    OpenFile := fun _ s => (true, s)
    DeadlineExceeded := fun _ _ => false }

/-- A host whose list request fails with a connection error while its other
runtime requests are served by the modelled runtime. -/
def lookupFailsHost : Host Engine :=
  { engineHost with ContainerList := fun _ s => (.error "connection refused", s) }

/-! ## Reading a decimal rendering back -/

/-- One step of reading a rendered integer: a minus sign sets the flag, any
other character is taken as a decimal digit. -/
def digitStep (a : Bool × Nat) (c : Char) : Bool × Nat :=
  if c = '-' then (true, a.2) else (a.1, 10 * a.2 + (c.toNat - 48))

/-- The sign flag and magnitude read from a string of decimal digits with an
optional minus sign. -/
def readDecimal (s : String) : Bool × Nat :=
  s.data.foldl digitStep (false, 0)

/-! ## Theorems -/

theorem digitStep_digitChar (sg : Bool) (a d : Nat) (hd : d < 10) :
    digitStep (sg, a) (Nat.digitChar d) = (sg, 10 * a + d) := by
  have h1 : Nat.digitChar d ≠ '-' := by interval_cases d <;> decide
  have h2 : (Nat.digitChar d).toNat - 48 = d := by interval_cases d <;> decide
  simp [digitStep, h1, h2]

theorem foldl_digitStep_toDigitsCore (sg : Bool) :
    ∀ (fuel n : Nat) (ds : List Char), n < fuel →
      List.foldl digitStep (sg, 0) (Nat.toDigitsCore 10 fuel n ds)
        = List.foldl digitStep (sg, n) ds := by
  intro fuel
  induction fuel with
  | zero => intro n ds hn; omega
  | succ fuel ih =>
    intro n ds hn
    simp only [Nat.toDigitsCore]
    split
    · rename_i h0
      have hlt : n < 10 := by omega
      simp only [List.foldl_cons]
      rw [digitStep_digitChar sg 0 (n % 10) (Nat.mod_lt _ (by decide))]
      have : 10 * 0 + n % 10 = n := by omega
      rw [this]
    · rename_i h0
      have hlt : n / 10 < fuel := by omega
      rw [ih (n / 10) _ hlt]
      simp only [List.foldl_cons]
      rw [digitStep_digitChar sg (n / 10) (n % 10) (Nat.mod_lt _ (by decide))]
      have : 10 * (n / 10) + n % 10 = n := by omega
      rw [this]

theorem readDecimal_fmtD_ofNat (m : Nat) : readDecimal (fmtD (Int.ofNat m)) = (false, m) := by
  show List.foldl digitStep (false, 0) (Nat.toDigitsCore 10 (m + 1) m []) = (false, m)
  rw [foldl_digitStep_toDigitsCore false (m + 1) m [] (by omega)]
  rfl

theorem readDecimal_fmtD_negSucc (m : Nat) :
    readDecimal (fmtD (Int.negSucc m)) = (true, m + 1) := by
  show List.foldl digitStep (false, 0)
    ("-" ++ (Nat.toDigitsCore 10 (m + 1 + 1) (m + 1) []).asString).data = (true, m + 1)
  rw [String.data_append]
  show List.foldl digitStep (true, 0) (Nat.toDigitsCore 10 (m + 1 + 1) (m + 1) []) = _
  rw [foldl_digitStep_toDigitsCore true (m + 1 + 1) (m + 1) [] (by omega)]
  rfl

theorem fmtD_injective (a b : Int) (h : fmtD a = fmtD b) : a = b := by
  have hr : readDecimal (fmtD a) = readDecimal (fmtD b) := by rw [h]
  cases a with
  | ofNat m =>
    cases b with
    | ofNat n =>
      rw [readDecimal_fmtD_ofNat, readDecimal_fmtD_ofNat] at hr
      simp only [Prod.mk.injEq, true_and] at hr
      rw [hr]
    | negSucc n =>
      rw [readDecimal_fmtD_ofNat, readDecimal_fmtD_negSucc] at hr
      simp at hr
  | negSucc m =>
    cases b with
    | ofNat n =>
      rw [readDecimal_fmtD_ofNat, readDecimal_fmtD_negSucc] at hr
      simp at hr
    | negSucc n =>
      rw [readDecimal_fmtD_negSucc, readDecimal_fmtD_negSucc] at hr
      simp only [Prod.mk.injEq, true_and, Nat.add_right_cancel_iff] at hr
      rw [hr]

theorem string_append_left_cancel (p x y : String) (h : p ++ x = p ++ y) : x = y := by
  have hd : (p ++ x).data = (p ++ y).data := by rw [h]
  rw [String.data_append, String.data_append] at hd
  exact String.ext (List.append_cancel_left hd)

/-- C10: the pid-file path is "/tmp/dockersh-exec-" followed by the decimal
rendering of the process id, and two distinct process ids never give the same
path. -/
theorem C10_pidfilePath_deterministic_injective :
    (∀ p : Int, pidfilePath p = "/tmp/dockersh-exec-" ++ toString p) ∧
    (∀ p q : Int, p ≠ q → pidfilePath p ≠ pidfilePath q) := by
  refine ⟨fun p => rfl, ?_⟩
  intro p q hpq heq
  exact hpq (fmtD_injective p q (string_append_left_cancel _ _ _ heq))

/-! ### The requests of `startContainer` -/

theorem mem_containerID_trace {σ : Type} (h : Host σ) (name : String) (s : σ) (q : Request)
    (hq : q ∈ (containerID h name s).trace) : q = .list (anyState name) := by
  unfold containerID at hq
  split at hq
  · simp at hq
  · split at hq <;> simpa using hq

theorem mem_createAndStart_trace {σ : Type} (h : Host σ) (config : Configuration) (s : σ)
    (tr : List Request) (q : Request) (hq : q ∈ (createAndStart h config s tr).trace) :
    q ∈ tr ∨ q = createRequest h config s ∨ ∃ i, q = .start i := by
  unfold createAndStart at hq
  split at hq
  · simp only [List.mem_append, List.mem_singleton] at hq
    rcases hq with hq | hq
    · exact Or.inl hq
    · exact Or.inr (Or.inl hq)
  · split at hq <;>
    · simp only [List.mem_append, List.mem_cons, List.mem_singleton, List.not_mem_nil,
        or_false] at hq
      rcases hq with hq | hq | hq
      · exact Or.inl hq
      · exact Or.inr (Or.inl hq)
      · exact Or.inr (Or.inr ⟨_, hq⟩)

theorem mem_startContainer_trace {σ : Type} (h : Host σ) (config : Configuration) (s : σ)
    (q : Request) (hq : q ∈ (startContainer h config s).trace) :
    q = .list (anyState config.ContainerName) ∨
    q = .remove (containerID h config.ContainerName s).val removeOptions ∨
    (∃ s1, q = createRequest h config s1) ∨ ∃ i, q = .start i := by
  unfold startContainer at hq
  split at hq
  · simp at hq
  · simp only at hq
    split at hq
    · split at hq
      · simp only [List.mem_append, List.mem_singleton] at hq
        rcases hq with hq | hq
        · exact Or.inl (mem_containerID_trace _ _ _ _ hq)
        · exact Or.inr (Or.inl hq)
      · rcases mem_createAndStart_trace _ _ _ _ _ hq with hq | hq | hq
        · simp only [List.mem_append, List.mem_singleton] at hq
          rcases hq with hq | hq
          · exact Or.inl (mem_containerID_trace _ _ _ _ hq)
          · exact Or.inr (Or.inl hq)
        · exact Or.inr (Or.inr (Or.inl ⟨_, hq⟩))
        · exact Or.inr (Or.inr (Or.inr hq))
    · rcases mem_createAndStart_trace _ _ _ _ _ hq with hq | hq | hq
      · exact Or.inl (mem_containerID_trace _ _ _ _ hq)
      · exact Or.inr (Or.inr (Or.inl ⟨_, hq⟩))
      · exact Or.inr (Or.inr (Or.inr hq))

theorem create_of_mem_startContainer {σ : Type} (h : Host σ) (config : Configuration) (s : σ)
    (c : ContainerConfig) (hc : HostConfig) (name : String)
    (hq : Request.create c hc name ∈ (startContainer h config s).trace) :
    (∃ hostname, c = createConfig config hostname) ∧ hc = createHostConfig config ∧
      name = config.ContainerName := by
  rcases mem_startContainer_trace h config s _ hq with hq | hq | ⟨s1, hq⟩ | ⟨i, hq⟩
  · cases hq
  · cases hq
  · simp only [createRequest, Request.create.injEq] at hq
    exact ⟨⟨_, hq.1⟩, hq.2.1, hq.2.2⟩
  · cases hq

theorem createAndStart_success {σ : Type} (h : Host σ) (config : Configuration) (s : σ)
    (tr : List Request) (hok : (createAndStart h config s tr).err = none) :
    (createAndStart h config s tr).trace
      = tr ++ [createRequest h config s, .start (createAndStart h config s tr).val] := by
  unfold createAndStart at hok ⊢
  split
  · rename_i heq
    rw [heq] at hok
    cases hok
  · rename_i heq
    rw [heq] at hok
    simp only at hok ⊢
    split
    · rename_i heq2
      rw [heq2] at hok
      cases hok
    · rfl

/-- A successful `startContainer` has issued a create request and, last, a
start request for the id it returns. -/
theorem startContainer_success_creates {σ : Type} (h : Host σ) (config : Configuration) (s : σ)
    (hok : (startContainer h config s).err = none) :
    ∃ s1 tr, (startContainer h config s).trace
      = tr ++ [createRequest h config s1, .start (startContainer h config s).val] := by
  unfold startContainer at hok ⊢
  split
  · rename_i heq
    rw [heq] at hok
    cases hok
  · rename_i heq
    rw [heq] at hok
    simp only at hok ⊢
    split
    · rename_i hne
      rw [if_pos hne] at hok
      split
      · rename_i heq2
        rw [heq2] at hok
        cases hok
      · rename_i heq2
        rw [heq2] at hok
        exact ⟨_, _, createAndStart_success h config _ _ hok⟩
    · rename_i hne
      rw [if_neg hne] at hok
      exact ⟨_, _, createAndStart_success h config _ _ hok⟩

/-- C5, as the code has it: whatever the configuration, the host and the
world, a create request issued by `startContainer` drops exactly SETUID,
SETGID, NET_RAW and MKNOD, adds no capability, does not ask for a privileged
container (`Privileged` is false) and carries no security option at all (so
it does not ask for no-new-privileges), has a read-only root filesystem,
carries exactly one mount, a writable volume at /var/run/screen, and publishes
no port (nothing is exposed, bound or published wholesale). -/
theorem C5_create_request_hardening {σ : Type} (h : Host σ) (config : Configuration) (s : σ)
    (c : ContainerConfig) (hc : HostConfig) (name : String)
    (hq : Request.create c hc name ∈ (startContainer h config s).trace) :
    hc.CapDrop = ["SETUID", "SETGID", "NET_RAW", "MKNOD"] ∧
    hc.CapAdd = [] ∧ hc.Capabilities = [] ∧
    hc.Privileged = false ∧
    hc.SecurityOpt = [] ∧
    hc.ReadonlyRootfs = true ∧
    hc.Mounts = [⟨"/var/run/screen", "", "volume", false⟩] ∧
    hc.PublishAllPorts = false ∧ hc.PortBindings = [] ∧ c.ExposedPorts = [] := by
  obtain ⟨⟨hostname, h1⟩, h2, -⟩ := create_of_mem_startContainer h config s c hc name hq
  subst h1 h2
  simp [createHostConfig, createConfig]

/-- Witness for C5: provisioning `devbox` on a runtime without containers
issues a create request, and it is hardened as stated. -/
theorem C5_create_request_hardening_witness :
    (createHostConfig devbox).CapDrop = ["SETUID", "SETGID", "NET_RAW", "MKNOD"] ∧
    (createHostConfig devbox).CapAdd = [] ∧ (createHostConfig devbox).Capabilities = [] ∧
    (createHostConfig devbox).Privileged = false ∧
    (createHostConfig devbox).SecurityOpt = [] ∧
    (createHostConfig devbox).ReadonlyRootfs = true ∧
    (createHostConfig devbox).Mounts = [⟨"/var/run/screen", "", "volume", false⟩] ∧
    (createHostConfig devbox).PublishAllPorts = false ∧
    (createHostConfig devbox).PortBindings = [] ∧
    (createConfig devbox "host").ExposedPorts = [] :=
  C5_create_request_hardening engineHost devbox noContainers (createConfig devbox "host")
    (createHostConfig devbox) "devbox" (by decide)

/-- Counterexample to C5 as stated: provisioning `devbox` on a runtime without
containers issues a create request whose security options are empty, so the
option that disables privilege escalation, no-new-privileges, is not among
them; the request only refrains from asking for a privileged container. -/
theorem C5_privilege_escalation_not_disabled :
    Request.create (createConfig devbox "host") (createHostConfig devbox) "devbox"
      ∈ (startContainer engineHost devbox noContainers).trace ∧
    (createHostConfig devbox).SecurityOpt = [] ∧
    "no-new-privileges" ∉ (createHostConfig devbox).SecurityOpt ∧
    "no-new-privileges:true" ∉ (createHostConfig devbox).SecurityOpt ∧
    "no-new-privileges=true" ∉ (createHostConfig devbox).SecurityOpt ∧
    (createHostConfig devbox).Privileged = false :=
  by decide

/-- C6: the bind list of a create request issued by `startContainer` is the two
read-only identity binds followed, in this order, by the /tmp bind iff
`MountTmp`, the home bind iff `MountHome` and the docker-socket bind iff
`MountDockerSocket`. -/
theorem C6_create_request_binds {σ : Type} (h : Host σ) (config : Configuration) (s : σ)
    (c : ContainerConfig) (hc : HostConfig) (name : String)
    (hq : Request.create c hc name ∈ (startContainer h config s).trace) :
    hc.Binds = ["/etc/passwd:/etc/passwd:ro", "/etc/group:/etc/group:ro"]
      ++ (if config.MountTmp then ["/tmp:/tmp:rw"] else [])
      ++ (if config.MountHome then
            [config.MountHomeFrom ++ ":" ++ config.MountHomeTo ++ ":rw"] else [])
      ++ (if config.MountDockerSocket then
            [config.DockerSocket ++ ":/var/run/docker.sock"] else []) := by
  obtain ⟨-, h2, -⟩ := create_of_mem_startContainer h config s c hc name hq
  subst h2
  simp only [createHostConfig, startBinds]
  cases config.MountTmp <;> cases config.MountHome <;> cases config.MountDockerSocket <;> simp

/-- Witness for C6: for `devbox`, which mounts /tmp and the home directory but
not the docker socket, the create request binds four paths. -/
theorem C6_create_request_binds_witness :
    (createHostConfig devbox).Binds = ["/etc/passwd:/etc/passwd:ro", "/etc/group:/etc/group:ro"]
      ++ (if devbox.MountTmp then ["/tmp:/tmp:rw"] else [])
      ++ (if devbox.MountHome then
            [devbox.MountHomeFrom ++ ":" ++ devbox.MountHomeTo ++ ":rw"] else [])
      ++ (if devbox.MountDockerSocket then
            [devbox.DockerSocket ++ ":/var/run/docker.sock"] else []) :=
  C6_create_request_binds engineHost devbox noContainers (createConfig devbox "host")
    (createHostConfig devbox) "devbox" (by decide)

/-! ### The session bridge -/

/-- C7: what `execContainer2` appends after the container id depends on the
command string alone.  For a non-empty command it is exactly the shell, "-c"
and the command, whatever `PS1` and the process id are; for the empty command
it is the shell, "--login", then "-i" iff `PS1` is non-empty, then "-c" and
the bootstrap that writes the pid to the pid-file and execs the shell. -/
theorem C7_session_shell_invocation {σ : Type} (h : Host σ) (id : String)
    (config : Configuration) (dockerBinary : String) (s : σ) :
    (∀ cmd : String, cmd ≠ "" →
      (sessionCommand h cmd id config dockerBinary s).args
        = sessionOptions config (h.IsTerminal s) ++ [id] ++ [config.Shell, "-c", cmd]) ∧
    (sessionCommand h "" id config dockerBinary s).args
        = sessionOptions config (h.IsTerminal s) ++ [id] ++ [config.Shell, "--login"]
          ++ (if h.Getenv "PS1" s ≠ "" then ["-i"] else [])
          ++ ["-c", "echo $$ > " ++ pidfilePath (h.Getpid s) ++ "; exec " ++ config.Shell] := by
  constructor
  · intro cmd hcmd
    simp [sessionCommand, sessionArgs, hcmd]
  · by_cases hps : h.Getenv "PS1" s = "" <;>
      simp [sessionCommand, sessionArgs, bootstrap, hps]

/-- Witness for C7: with the command "echo hi" the invocation is the shell, "-c"
and "echo hi", although `PS1` is set on that host. -/
theorem C7_session_shell_invocation_witness :
    (sessionCommand failingRunHost "echo hi" "a" devbox "/usr/bin/docker" noContainers).args
      = sessionOptions devbox true ++ ["a"] ++ ["/bin/bash", "-c", "echo hi"] :=
  (C7_session_shell_invocation failingRunHost "a" devbox "/usr/bin/docker" noContainers).1
    "echo hi" (by decide)

/-- C8: once `docker` has been located, `execContainer2` runs the session command
and then `dockerExecCleanup`, once, on the world the session left; the world it
returns is the one the cleanup left; and its result is the outcome of the
session command, whatever the cleanup command yields. -/
theorem C8_cleanup_once_result_unchanged {σ : Type} (h : Host σ) (cmd id : String)
    (config : Configuration) (s : σ) (dockerBinary : String)
    (hlp : h.LookPath "docker" s = .ok dockerBinary) :
    (execContainer2 h cmd id config s).err
      = (h.Run (sessionCommand h cmd id config dockerBinary s) s).1 ∧
    (execContainer2 h cmd id config s).trace
      = [sessionCommand h cmd id config dockerBinary s,
         cleanupCommand config id dockerBinary (pidfilePath (h.Getpid s))] ∧
    (execContainer2 h cmd id config s).trace
      = [sessionCommand h cmd id config dockerBinary s]
        ++ (dockerExecCleanup h config id dockerBinary (pidfilePath (h.Getpid s))
              (h.Run (sessionCommand h cmd id config dockerBinary s) s).2).2 ∧
    (execContainer2 h cmd id config s).state
      = (dockerExecCleanup h config id dockerBinary (pidfilePath (h.Getpid s))
              (h.Run (sessionCommand h cmd id config dockerBinary s) s).2).1 ∧
    (sessionCommand h cmd id config dockerBinary s).timeout = none ∧
    (cleanupCommand config id dockerBinary (pidfilePath (h.Getpid s))).timeout = some 10 := by
  simp [execContainer2, hlp, dockerExecCleanup, sessionCommand, cleanupCommand]

/-- Witness for C8: on a host where the session exits with status 3 and the
cleanup is killed, `execContainer2` reports the session's status 3. -/
theorem C8_cleanup_once_result_unchanged_witness :
    (execContainer2 failingRunHost "" "a" devbox noContainers).err = some "exit status 3" :=
  (C8_cleanup_once_result_unchanged failingRunHost "" "a" devbox noContainers
    "/usr/bin/docker" rfl).1

/-- C9: `dockerExecCleanup` runs, through `Run` and under its deadline of ten
seconds, the docker binary with "exec", the container id of the session, the
shell, "-c" and a script that tests for the pid-file and, inside that test,
sends HUP to the negated id read from it and removes it; the world it leaves is
the world that run leaves.  The path `execContainer2` hands to the cleanup is
the path the login-mode bootstrap writes to, and the world `execContainer2`
leaves is the one left by running the session command and then that cleanup
command. -/
theorem C9_cleanup_command {σ : Type} (h : Host σ) (cmd id : String)
    (config : Configuration) (s : σ) (dockerBinary : String)
    (hlp : h.LookPath "docker" s = .ok dockerBinary) :
    (∀ P : String, cleanupArgs config id P
      = ["exec", id, config.Shell, "-c",
         "if [ -f " ++ P ++ " ]; then kill -HUP -$(cat " ++ P ++ "); rm " ++ P ++ "; fi"]) ∧
    (execContainer2 h cmd id config s).trace
      = [⟨none, dockerBinary,
            sessionArgs config cmd (h.IsTerminal s) (h.Getenv "PS1" s)
              (pidfilePath (h.Getpid s)) id⟩,
         ⟨some 10, dockerBinary, cleanupArgs config id (pidfilePath (h.Getpid s))⟩] ∧
    (∀ (isTerminal : Bool) (ps1 P : String),
      (sessionArgs config "" isTerminal ps1 P id).getLast?
        = some ("echo $$ > " ++ P ++ "; exec " ++ config.Shell)) ∧
    (∀ (isTerminal : Bool) (ps1 P : String),
      ∃ rest, sessionArgs config cmd isTerminal ps1 P id
        = sessionOptions config isTerminal ++ id :: config.Shell :: rest) ∧
    (∀ (P : String) (s1 : σ),
      dockerExecCleanup h config id dockerBinary P s1
        = ((h.Run ⟨some 10, dockerBinary,
              ["exec", id, config.Shell, "-c",
               "if [ -f " ++ P ++ " ]; then kill -HUP -$(cat " ++ P ++ "); rm " ++ P
                 ++ "; fi"]⟩ s1).2,
           [⟨some 10, dockerBinary,
              ["exec", id, config.Shell, "-c",
               "if [ -f " ++ P ++ " ]; then kill -HUP -$(cat " ++ P ++ "); rm " ++ P
                 ++ "; fi"]⟩])) ∧
    (execContainer2 h cmd id config s).state
      = (h.Run ⟨some 10, dockerBinary, cleanupArgs config id (pidfilePath (h.Getpid s))⟩
          (h.Run ⟨none, dockerBinary,
              sessionArgs config cmd (h.IsTerminal s) (h.Getenv "PS1" s)
                (pidfilePath (h.Getpid s)) id⟩ s).2).2 := by
  refine ⟨fun P => by simp [cleanupArgs, cleanupScript], ?_, ?_, ?_, ?_, ?_⟩
  · simp [execContainer2, hlp, dockerExecCleanup, sessionCommand, cleanupCommand]
  · intro isTerminal ps1 P
    by_cases hps : ps1 = "" <;> simp [sessionArgs, bootstrap, hps]
  · intro isTerminal ps1 P
    by_cases hcmd : cmd = "" <;> by_cases hps : ps1 = "" <;> simp [sessionArgs, hcmd, hps]
  · intro P s1
    simp [dockerExecCleanup, cleanupCommand, cleanupArgs, cleanupScript]
  · simp [execContainer2, hlp, dockerExecCleanup, sessionCommand, cleanupCommand]

/-- Witness for C9: on a host whose world is the list of the commands really
run, the cleanup of process 4242 for container "a" is in that world, after the
session command. -/
theorem C9_cleanup_command_witness :
    (execContainer2 recordingHost "" "a" devbox []).trace
      = [⟨none, "/usr/bin/docker",
            sessionArgs devbox "" true "$ " (pidfilePath 4242) "a"⟩,
         ⟨some 10, "/usr/bin/docker", cleanupArgs devbox "a" (pidfilePath 4242)⟩] ∧
    (execContainer2 recordingHost "" "a" devbox []).state
      = [⟨none, "/usr/bin/docker",
            sessionArgs devbox "" true "$ " (pidfilePath 4242) "a"⟩,
         ⟨some 10, "/usr/bin/docker", cleanupArgs devbox "a" (pidfilePath 4242)⟩] :=
  ⟨(C9_cleanup_command recordingHost "" "a" devbox [] "/usr/bin/docker" rfl).2.1,
   (C9_cleanup_command recordingHost "" "a" devbox [] "/usr/bin/docker" rfl).2.2.2.2.2⟩

/-! ### Removal and failure in `startContainer` -/

theorem containerID_trace_of_client {σ : Type} (h : Host σ) (name : String) (s : σ)
    (hc : h.NewClientWithOpts s = none) :
    (containerID h name s).trace = [.list (anyState name)] := by
  unfold containerID
  rw [hc]
  simp only
  split <;> rfl

theorem containerID_val_of_no_client {σ : Type} (h : Host σ) (name : String) (s : σ) (e : Error)
    (hc : h.NewClientWithOpts s = some e) : (containerID h name s).val = "" := by
  unfold containerID
  rw [hc]

theorem createAndStart_trace {σ : Type} (h : Host σ) (config : Configuration) (s : σ)
    (tr : List Request) :
    ∃ rest, (createAndStart h config s tr).trace = tr ++ rest ∧
      ∀ q ∈ rest, q = createRequest h config s ∨ ∃ i, q = .start i := by
  unfold createAndStart
  split
  · exact ⟨_, rfl, by simp⟩
  · split
    · refine ⟨_, rfl, ?_⟩
      intro q hq
      simp only [List.mem_cons, List.mem_singleton, List.not_mem_nil, or_false] at hq
      rcases hq with hq | hq
      · exact Or.inl hq
      · exact Or.inr ⟨_, hq⟩
    · refine ⟨_, rfl, ?_⟩
      intro q hq
      simp only [List.mem_cons, List.mem_singleton, List.not_mem_nil, or_false] at hq
      rcases hq with hq | hq
      · exact Or.inl hq
      · exact Or.inr ⟨_, hq⟩

/-- C3, as the code has it: when the any-state lookup returns a non-empty id,
`startContainer` issues, right after the lookup, one remove request for exactly
that id with the default options (`Force` is false), and whatever follows is a
create or a start request, so the removal precedes the create; when the lookup
returns the empty id, no remove request is issued at all. -/
theorem C3_remove_exactly_lookup_result {σ : Type} (h : Host σ) (config : Configuration)
    (s : σ) :
    ((containerID h config.ContainerName s).val ≠ "" →
      ∃ rest, (startContainer h config s).trace
          = [.list (anyState config.ContainerName),
             .remove (containerID h config.ContainerName s).val ⟨false, false, false⟩] ++ rest ∧
        ∀ q ∈ rest, (∃ s1, q = createRequest h config s1) ∨ ∃ i, q = .start i) ∧
    ((containerID h config.ContainerName s).val = "" →
      ∀ q ∈ (startContainer h config s).trace, ∀ i o, q ≠ .remove i o) := by
  constructor
  · intro hne
    cases hc : h.NewClientWithOpts s with
    | some e => exact absurd (containerID_val_of_no_client h _ s e hc) hne
    | none =>
      have htr := containerID_trace_of_client h config.ContainerName s hc
      unfold startContainer
      rw [hc]
      simp only [hne, ne_eq, not_false_eq_true, if_true]
      split
      · exact ⟨[], by simp [htr, removeOptions], by simp⟩
      · rename_i s2 _
        obtain ⟨rest, hrest, hall⟩ := createAndStart_trace h config s2
          ((containerID h config.ContainerName s).trace
            ++ [.remove (containerID h config.ContainerName s).val removeOptions])
        refine ⟨rest, ?_, ?_⟩
        · rw [hrest, htr]
          simp [removeOptions]
        · intro q hq
          rcases hall q hq with hq | hq
          · exact Or.inl ⟨_, hq⟩
          · exact Or.inr hq
  · intro hempty q hq i o hrm
    subst hrm
    cases hc : h.NewClientWithOpts s with
    | some e =>
      have htrace : (startContainer h config s).trace = [] := by simp [startContainer, hc]
      rw [htrace] at hq
      cases hq
    | none =>
      have htr := containerID_trace_of_client h config.ContainerName s hc
      have htrace : (startContainer h config s).trace
          = (createAndStart h config (containerID h config.ContainerName s).state
              (containerID h config.ContainerName s).trace).trace := by
        simp [startContainer, hc, hempty]
      obtain ⟨rest, hrest, hall⟩ := createAndStart_trace h config
        (containerID h config.ContainerName s).state (containerID h config.ContainerName s).trace
      rw [htrace, hrest, htr] at hq
      simp only [List.mem_append, List.mem_singleton] at hq
      rcases hq with hq | hq
      · cases hq
      · rcases hall _ hq with hx | ⟨j, hx⟩
        · simp [createRequest] at hx
        · cases hx

/-- Witness for C3: with one stopped container "a" named `devbox`, the lookup
returns "a" and the requests are list, remove "a" without force, create,
start. -/
theorem C3_remove_exactly_lookup_result_witness :
    ∃ rest, (startContainer engineHost devbox oneStopped).trace
        = [.list (anyState "devbox"), .remove "a" ⟨false, false, false⟩] ++ rest ∧
      ∀ q ∈ rest, (∃ s1, q = createRequest engineHost devbox s1) ∨ ∃ i, q = .start i :=
  (C3_remove_exactly_lookup_result engineHost devbox oneStopped).1 (by decide)

/-- Counterexample to C3 as stated: with one stopped container "a" named
`devbox`, the lookup returns "a", yet no remove request with the force option
is issued; the one that is issued has `Force` false. -/
theorem C3_remove_not_forced :
    (containerID engineHost devbox.ContainerName oneStopped).val = "a" ∧
    Request.remove "a" ⟨false, false, true⟩ ∉ (startContainer engineHost devbox oneStopped).trace ∧
    Request.remove "a" ⟨false, false, false⟩ ∈ (startContainer engineHost devbox oneStopped).trace :=
  by decide

/-- C4 at its failing input: the any-state lookup fails with "connection
refused", and `startContainer` still issues a create and a start request and
returns a container id with no error. -/
theorem C4_failed_lookup_followed_by_create :
    (containerID lookupFailsHost devbox.ContainerName oneStopped).err = some "connection refused" ∧
    (containerID lookupFailsHost devbox.ContainerName oneStopped).val = "" ∧
    (startContainer lookupFailsHost devbox oneStopped).val = "cc" ∧
    (startContainer lookupFailsHost devbox oneStopped).err = none ∧
    (startContainer lookupFailsHost devbox oneStopped).trace
      = [.list (anyState "devbox"), createRequest lookupFailsHost devbox oneStopped,
         .start "cc"] :=
  by decide

/-- The steps of `startContainer` whose error is checked: a failing client
construction, removal, create or start makes it return the empty id with that
error, and the failing request is the last one issued. -/
theorem startContainer_checked_failures_abort {σ : Type} (h : Host σ) (config : Configuration)
    (s : σ) (e : Error) :
    (h.NewClientWithOpts s = some e →
      (startContainer h config s).val = "" ∧ (startContainer h config s).err = some e ∧
      (startContainer h config s).trace = []) ∧
    (∀ s2, h.NewClientWithOpts s = none → (containerID h config.ContainerName s).val ≠ "" →
      h.ContainerRemove (containerID h config.ContainerName s).val removeOptions
        (containerID h config.ContainerName s).state = (some e, s2) →
      (startContainer h config s).val = "" ∧ (startContainer h config s).err = some e ∧
      (startContainer h config s).trace
        = [.list (anyState config.ContainerName),
           .remove (containerID h config.ContainerName s).val removeOptions]) ∧
    (∀ s1 s2 tr, h.ContainerCreate (createConfig config (h.Hostname s1))
        (createHostConfig config) config.ContainerName s1 = (.error e, s2) →
      (createAndStart h config s1 tr).val = "" ∧ (createAndStart h config s1 tr).err = some e ∧
      (createAndStart h config s1 tr).trace = tr ++ [createRequest h config s1]) ∧
    (∀ s1 s2 s3 tr respID, h.ContainerCreate (createConfig config (h.Hostname s1))
        (createHostConfig config) config.ContainerName s1 = (.ok respID, s2) →
      h.ContainerStart respID s2 = (some e, s3) →
      (createAndStart h config s1 tr).val = "" ∧ (createAndStart h config s1 tr).err = some e ∧
      (createAndStart h config s1 tr).trace
        = tr ++ [createRequest h config s1, .start respID]) := by
  refine ⟨?_, ?_, ?_, ?_⟩
  · intro hc
    simp [startContainer, hc]
  · intro s2 hc hne hrm
    have htr := containerID_trace_of_client h config.ContainerName s hc
    simp [startContainer, hc, hne, hrm, htr]
  · intro s1 s2 tr hcr
    simp [createAndStart, hcr]
  · intro s1 s2 s3 tr respID hcr hst
    simp [createAndStart, hcr, hst]

/-! ### The exit status of `main` -/

theorem main_ended {σ : Type} (h : Host σ) (cmd : String) (s : σ) :
    (main h cmd s).ended = .mainReturned := by
  unfold main
  simp only
  split
  · rfl
  · split
    · rfl
    · split
      · rfl
      · split <;> rfl

/-- C1, as the code has it: `main` always ends by returning, so the exit status
is 0 on every run: on the runs in which configuration loading, the running-only
lookup, `startContainer` or `execContainer2` reports an error (its diagnostic
is then among the writes to the error stream), and on the runs in which none
of them fails. -/
theorem C1_exit_status_zero_on_every_run {σ : Type} (h : Host σ) (cmd : String) (s : σ) :
    (main h cmd s).status = 0 ∧
    (∀ e s0, h.loadAllConfig s = (.error e, s0) →
      Write.diagnostic ("Could not load config: " ++ e ++ "\n") ∈ (main h cmd s).stderr) ∧
    (∀ config s0 e, h.loadAllConfig s = (.ok config, s0) →
      (isContainerRunning h config.ContainerName (setupLogger h config s0).state).err = some e →
      Write.diagnostic ("Could not check container status: " ++ e ++ "\n")
        ∈ (main h cmd s).stderr) ∧
    (∀ config s0 e, h.loadAllConfig s = (.ok config, s0) →
      (isContainerRunning h config.ContainerName (setupLogger h config s0).state).err = none →
      (isContainerRunning h config.ContainerName (setupLogger h config s0).state).val = "" →
      (startContainer h config
        (isContainerRunning h config.ContainerName (setupLogger h config s0).state).state).err
        = some e →
      Write.diagnostic ("could not start container: " ++ e ++ "\n") ∈ (main h cmd s).stderr) ∧
    (∀ config s0 e, h.loadAllConfig s = (.ok config, s0) →
      (isContainerRunning h config.ContainerName (setupLogger h config s0).state).err = none →
      (obtainID h config
        (isContainerRunning h config.ContainerName (setupLogger h config s0).state)).err = none →
      (execContainer2 h cmd
        (obtainID h config
          (isContainerRunning h config.ContainerName (setupLogger h config s0).state)).val
        config
        (obtainID h config
          (isContainerRunning h config.ContainerName (setupLogger h config s0).state)).state).err
        = some e →
      Write.diagnostic ("could not exec into container: " ++ e ++ "\n")
        ∈ (main h cmd s).stderr) := by
  refine ⟨?_, ?_, ?_, ?_, ?_⟩
  · simp [Exit.status, main_ended, Termination.status]
  · intro e s0 hl
    simp [main, hl]
  · intro config s0 e hl hr
    simp [main, hl, hr]
  · intro config s0 e hl hr hv hst
    simp [main, hl, hr, obtainID, hv, hst]
  · intro config s0 e hl hr ho hex
    simp [main, hl, hr, ho, hex]

/-- Counterexample to C1 as stated: a run whose configuration cannot be loaded,
and a run whose session command exits with status 3, each write their
diagnostic to the error stream and each end with exit status 0. -/
theorem C1_failure_reported_with_status_zero :
    Write.diagnostic "Could not load config: no configuration\n"
      ∈ (main engineHost "" noContainers).stderr ∧
    (main engineHost "" noContainers).status = 0 ∧
    Write.diagnostic "could not exec into container: exit status 3\n"
      ∈ (main failingRunHost "" noContainers).stderr ∧
    (main failingRunHost "" noContainers).status = 0 :=
  by decide

/-- With `LogLevel` "debug" and no log file, a run without any failure writes
the debug entries of `logrus` to the error stream: those of `main` after the
level is set, of `startContainer`, of `execContainer2` and of the cleanup. -/
theorem main_debug_entries_on_stderr :
    (main debugHost "" noContainers).stderr
      = [.debug "Config dump: %+v",
         .debug "Checking for container: name=%v",
         .debug "Container running? %v",
         .debug "Container is not running, starting it",
         .debug "Checking if container with name %v already exists: %v",
         .debug "Entry point is: %v",
         .debug "Bind mounting /tmp",
         .debug "Bind mounting home: %v",
         .debug "Container ID: %v",
         .debug "Exec into the container",
         .debug "Running command and waiting for it to finish: %v",
         .debug "Command finished: %v",
         .debug "Docker exec cleanup, running: %v",
         .debug "docker exec cleanup finished"] ∧
    (main debugHost "" noContainers).status = 0 :=
  by decide

/-! ### Provisioning on the runtime of the specification -/

theorem passes_anyState (name : String) (c : Container) :
    Engine.passes (anyState name) c = (c.Name == name) := by
  by_cases hn : c.Name = name
  · simp [Engine.passes, anyState, hn]
  · have hn2 : ¬ name = c.Name := fun h => hn h.symm
    simp [Engine.passes, anyState, hn, hn2]

theorem filter_passes_anyState (name : String) (s : Engine) :
    s.containers.filter (Engine.passes (anyState name)) = Engine.named name s := by
  unfold Engine.named
  congr 1
  funext c
  exact passes_anyState name c

theorem named_after_create_start (name f : String) (cs : List Container) :
    Engine.named name
        ⟨(cs ++ [Container.mk f name .Stopped]).map (Container.started f)⟩
      = (Engine.named name ⟨cs⟩).map (Container.started f) ++ [⟨f, name, .Running⟩] := by
  have hname : ∀ c : Container, (Container.started f c).Name = c.Name := by
    intro c
    unfold Container.started
    split <;> rfl
  simp only [Engine.named, List.map_append, List.filter_append, List.map_cons, List.map_nil]
  congr 1
  · rw [List.filter_map]
    congr 1
    apply List.filter_congr
    intro c _
    simp only [Function.comp, hname]
  · simp [Container.started]

theorem createAndStart_engine (config : Configuration) (s : Engine) (tr : List Request) :
    (createAndStart engineHost config s tr).val = s.freshID ∧
    (createAndStart engineHost config s tr).err = none ∧
    (createAndStart engineHost config s tr).state
      = ⟨(s.containers ++ [Container.mk s.freshID config.ContainerName .Stopped]).map
          (Container.started s.freshID)⟩ := by
  simp [createAndStart, engineHost, Engine.create, Engine.start]

/-- C2, with the precondition the code relies on: on the runtime of the
specification, if at most one container carries `config.ContainerName`
beforehand (and no container has the empty identifier), then after
`startContainer` returns successfully exactly one container carries that name,
it is the one whose id was returned, and it is Running. -/
theorem C2_one_running_container_after_start (config : Configuration) (s : Engine)
    (huniq : (Engine.named config.ContainerName s).length ≤ 1)
    (hids : ∀ c ∈ s.containers, c.ID ≠ "")
    (hok : (startContainer engineHost config s).err = none) :
    (Engine.named config.ContainerName (startContainer engineHost config s).state).length ≤ 1 ∧
    (∀ c ∈ Engine.named config.ContainerName (startContainer engineHost config s).state,
      c.State = .Running) ∧
    Engine.named config.ContainerName (startContainer engineHost config s).state
      = [⟨(startContainer engineHost config s).val, config.ContainerName, .Running⟩] := by
  have key : Engine.named config.ContainerName (startContainer engineHost config s).state
      = [⟨(startContainer engineHost config s).val, config.ContainerName, .Running⟩] := by
    have hflt := filter_passes_anyState config.ContainerName s
    cases hnamed : Engine.named config.ContainerName s with
    | nil =>
      rw [hnamed] at hflt
      have hid : containerID engineHost config.ContainerName s
          = ⟨"", none, s, [.list (anyState config.ContainerName)]⟩ := by
        simp [containerID, engineHost, Engine.list, hflt]
      have hsc : startContainer engineHost config s
          = createAndStart engineHost config s [.list (anyState config.ContainerName)] := by
        unfold startContainer
        rw [hid]
        simp [engineHost]
      obtain ⟨hv, -, hs⟩ := createAndStart_engine config s [.list (anyState config.ContainerName)]
      rw [hsc, hs, hv, named_after_create_start]
      have : Engine.named config.ContainerName ⟨s.containers⟩ = [] := hnamed
      rw [this]
      rfl
    | cons c rest =>
      rw [hnamed] at huniq hflt
      have hrest : rest = [] := by
        cases rest with
        | nil => rfl
        | cons _ _ => simp at huniq
      subst hrest
      have hcmem : c ∈ s.containers := by
        have : c ∈ Engine.named config.ContainerName s := by rw [hnamed]; simp
        exact (List.mem_filter.mp this).1
      have hcid : c.ID ≠ "" := hids c hcmem
      have hid : containerID engineHost config.ContainerName s
          = ⟨c.ID, none, s, [.list (anyState config.ContainerName)]⟩ := by
        simp [containerID, engineHost, Engine.list, hflt]
      have hgone : Engine.named config.ContainerName
          ⟨s.containers.filter (fun d => d.ID != c.ID)⟩ = [] := by
        have h1 : Engine.named config.ContainerName ⟨s.containers.filter (fun d => d.ID != c.ID)⟩
            = (Engine.named config.ContainerName s).filter (fun d => d.ID != c.ID) := by
          simp only [Engine.named, List.filter_filter]
          apply List.filter_congr
          intro d _
          exact Bool.and_comm _ _
        rw [h1, hnamed]
        simp
      cases hfind : s.containers.find? (fun d => d.ID == c.ID) with
      | none =>
        have := List.find?_eq_none.mp hfind c hcmem
        simp at this
      | some d =>
        by_cases hrun : d.State = .Running
        · have herr : (startContainer engineHost config s).err
              = some "cannot remove a running container" := by
            unfold startContainer
            rw [hid]
            simp [engineHost, Engine.remove, hfind, hrun, removeOptions, hcid]
          rw [herr] at hok
          cases hok
        · have hsc : startContainer engineHost config s
              = createAndStart engineHost config ⟨s.containers.filter (fun d => d.ID != c.ID)⟩
                  ([.list (anyState config.ContainerName)] ++ [.remove c.ID removeOptions]) := by
            unfold startContainer
            rw [hid]
            simp [engineHost, Engine.remove, hfind, hrun, removeOptions, hcid]
          obtain ⟨hv, -, hs⟩ := createAndStart_engine config
            ⟨s.containers.filter (fun d => d.ID != c.ID)⟩
            ([.list (anyState config.ContainerName)] ++ [.remove c.ID removeOptions])
          rw [hsc, hs, hv, named_after_create_start, hgone]
          rfl
  rw [key]
  simp

/-- Witness for C2: one stopped container named `devbox` beforehand; afterwards
the only container of that name is the new one, and it runs. -/
theorem C2_one_running_container_after_start_witness :
    (Engine.named devbox.ContainerName oneStopped).length ≤ 1 ∧
    (startContainer engineHost devbox oneStopped).err = none ∧
    Engine.named devbox.ContainerName (startContainer engineHost devbox oneStopped).state
      = [⟨(startContainer engineHost devbox oneStopped).val, devbox.ContainerName, .Running⟩] :=
  ⟨by decide, by decide,
    (C2_one_running_container_after_start devbox oneStopped (by decide) (by decide)
      (by decide)).2.2⟩

/-- Counterexample to C2 as stated: when two stopped containers carry the name
beforehand, `startContainer` succeeds, removes only the first match, and two
containers carry the name afterwards, one of them stopped. -/
theorem C2_two_named_containers_after_start :
    (startContainer engineHost devbox twoStopped).err = none ∧
    Engine.named "devbox" (startContainer engineHost devbox twoStopped).state
      = [⟨"b", "devbox", .Stopped⟩, ⟨"cc", "devbox", .Running⟩] ∧
    ¬ ((Engine.named "devbox" (startContainer engineHost devbox twoStopped).state).length ≤ 1 ∧
       ∀ c ∈ Engine.named "devbox" (startContainer engineHost devbox twoStopped).state,
         c.State = .Running) :=
  by decide

end Dockersh
